import Mathlib

/-!
Shallow embedding of the car-reader asset-catalog projector.

The embedded code comes from `src/assetutil.rs` (the JSON projector) and
`src/car.rs` (structure declarations, flag decoding, enumerations).  The
repository's `coreui`, `coregraphics` and `common` modules are not part of the
source tree given here; the handful of items from them that the projector
touches are modelled from the specification and are marked as such in their
doc comments.  Machine integers (u8/u16/u32/u64) are modelled as `Nat`, with
an explicit `% 2^32` where the source performs u32 arithmetic that can
overflow.  Rust `f64` values are modelled by their IEEE-754 bit patterns;
the only operation the source performs on them is `== 1.0`, which holds
exactly when the bit pattern is that of 1.0 (1.0 has a unique representation
and NaN compares unequal).
-/

namespace CarReader

/-- Attribute kinds, from `car.rs` `RenditionAttributeType` (codes 0..25). -/
inductive AttributeType
  | Look
  | Element
  | Part
  | Size
  | Direction
  | PlaceHolder
  | Value
  | Appearance
  | Dimension1
  | Dimension2
  | State
  | Layer
  | Scale
  | Unknown13
  | PresentationState
  | Idiom
  | Subtype
  | Identifier
  | PreviousValue
  | PreviousState
  | SizeClassHorizontal
  | SizeClassVertical
  | MemoryClass
  | GraphicsClass
  | DisplayGamut
  | DeploymentTarget
  deriving DecidableEq, Repr

/-- Display name of an attribute kind, from the `fmt::Display` impl in
`car.rs` (which delegates to the derived `Debug`, i.e. the variant name). -/
def AttributeType.display : AttributeType → String
  | .Look => "Look"
  | .Element => "Element"
  | .Part => "Part"
  | .Size => "Size"
  | .Direction => "Direction"
  | .PlaceHolder => "PlaceHolder"
  | .Value => "Value"
  | .Appearance => "Appearance"
  | .Dimension1 => "Dimension1"
  | .Dimension2 => "Dimension2"
  | .State => "State"
  | .Layer => "Layer"
  | .Scale => "Scale"
  | .Unknown13 => "Unknown13"
  | .PresentationState => "PresentationState"
  | .Idiom => "Idiom"
  | .Subtype => "Subtype"
  | .Identifier => "Identifier"
  | .PreviousValue => "PreviousValue"
  | .PreviousState => "PreviousState"
  | .SizeClassHorizontal => "SizeClassHorizontal"
  | .SizeClassVertical => "SizeClassVertical"
  | .MemoryClass => "MemoryClass"
  | .GraphicsClass => "GraphicsClass"
  | .DisplayGamut => "DisplayGamut"
  | .DeploymentTarget => "DeploymentTarget"

/-- One `(attribute kind, u16 value)` pair, from `car.rs` `RenditionAttribute`. -/
structure RenditionAttribute where
  name : AttributeType
  value : Nat
  deriving DecidableEq, Repr

/-- A facet's key token: its attribute list, from `car.rs` `RenditionKeyToken`
(the cursor-hotspot and count fields carry no information used by the
projector). -/
structure RenditionKeyToken where
  attributes : List RenditionAttribute
  deriving DecidableEq, Repr

/-- Rendition layout, from `car.rs` `RenditionLayoutType` (u16 codes). -/
inductive RenditionLayoutType
  | TextEffect
  | Vector
  | Image
  | Data
  | ExternalLink
  | LayerStack
  | InternalReference
  | PackedImage
  | NameList
  | UnknownAddObject
  | Texture
  | TextureImage
  | Color
  | MultisizeImage
  | LayerReference
  | ContentRendition
  | RecognitionObject
  deriving DecidableEq, Repr

/-- Pixel format, from `car.rs` `PixelFormat`. -/
inductive PixelFormat
  | None
  | ARGB
  | Data
  | Gray
  | JPEG
  deriving DecidableEq, Repr

/-- serde surface of `PixelFormat` (derived `Serialize`: variant names). -/
def PixelFormat.display : PixelFormat → String
  | .None => "None"
  | .ARGB => "ARGB"
  | .Data => "Data"
  | .Gray => "Gray"
  | .JPEG => "JPEG"

/-- Modelled from the spec: `coregraphics::ColorSpace` lives in a module that
is not under `src/`; the variant set follows §3 of the spec and the
commented-out enumeration in `car.rs` (SRGB = 0, gray gamma 2.2, P3, extended
variants, Unknown = 14). -/
inductive ColorSpace
  | SRGB
  | GrayGamma2_2
  | DisplayP3
  | ExtendedRangeSRGB
  | ExtendedLinearSRGB
  | ExtendedGray
  | Unknown
  deriving DecidableEq, Repr

/-- serde surface of `ColorSpace` (renames from the commented enumeration in
`car.rs`, e.g. `"srgb"`). -/
def ColorSpace.display : ColorSpace → String
  | .SRGB => "srgb"
  | .GrayGamma2_2 => "gray gamma 22"
  | .DisplayP3 => "p3"
  | .ExtendedRangeSRGB => "extended srgb"
  | .ExtendedLinearSRGB => "extended linear srgb"
  | .ExtendedGray => "extended gray"
  | .Unknown => "Unknown"

/-- Modelled from the spec: `coregraphics::ColorModel` (missing module);
§4.8 says `ColorModel` is derived from the catalog color-space id and the
seed scenario shows `"RGB"` for srgb. -/
inductive ColorModel
  | RGB
  | Gray
  deriving DecidableEq, Repr

def ColorModel.display : ColorModel → String
  | .RGB => "RGB"
  | .Gray => "Gray"

/-- Modelled from the spec: `ColorSpace::color_model` (missing module);
RGB-like spaces map to `RGB`, gray spaces to `Gray`, unknown to `None`. -/
def ColorSpace.color_model : ColorSpace → Option ColorModel
  | .SRGB => some .RGB
  | .GrayGamma2_2 => some .Gray
  | .DisplayP3 => some .RGB
  | .ExtendedRangeSRGB => some .RGB
  | .ExtendedLinearSRGB => some .RGB
  | .ExtendedGray => some .Gray
  | .Unknown => none

/-- Modelled from the spec: `coreui::rendition::CompressionType` (missing
module).  The surface strings observed in the repository's tests are
`"uncompressed"` and `"palette-img"`. -/
inductive CompressionType
  | Uncompressed
  | PaletteImg
  | Deepmap2
  deriving DecidableEq, Repr

def CompressionType.display : CompressionType → String
  | .Uncompressed => "uncompressed"
  | .PaletteImg => "palette-img"
  | .Deepmap2 => "deepmap2"

/-- Modelled from the spec: `coreui::rendition::Idiom` (missing module); the
glossary lists phone, pad and universal form factors, the seed scenarios show
`"universal"`, and the projector decodes it from a u16 with `FromPrimitive`
(unknown codes yield `None`). -/
inductive Idiom
  | universal
  | phone
  | pad
  deriving DecidableEq, Repr

def Idiom.display : Idiom → String
  | .universal => "universal"
  | .phone => "phone"
  | .pad => "pad"

/-- Modelled from the spec: `FromPrimitive::from_u16` for `Idiom`. -/
def idiom_from_u16 : Nat → Option Idiom
  | 0 => some .universal
  | 1 => some .phone
  | 2 => some .pad
  | _ => none

/-- Modelled from the spec: `coreui::rendition::TemplateMode` (missing
module), §4.3: an enumeration {automatic, original, template} decoded from a
3-bit subfield, unrecognized codes yield `None`. -/
inductive TemplateMode
  | automatic
  | original
  | template
  deriving DecidableEq, Repr

def TemplateMode.display : TemplateMode → String
  | .automatic => "automatic"
  | .original => "original"
  | .template => "template"

/-- Bit-packed rendition flags, from `car.rs` `RenditionFlags`: a single u32
word. -/
structure RenditionFlags where
  flags : Nat
  deriving DecidableEq, Repr

/-- `RenditionFlags::is_opaque` from `car.rs`: bit 3 of the flags word
(`((self.flags >> 3) & 1) != 0`).  Named in camel case because `opaque` is a
reserved word in Lean. -/
def RenditionFlags.isOpaque (f : RenditionFlags) : Bool :=
  ((f.flags >>> 3) &&& 1) != 0

/-- Modelled from the spec: `RenditionFlags::template_rendering_mode`
(missing module), §4.3: a 3-bit subfield decoded to the `TemplateMode`
enumeration, unrecognized codes yield `None`.  The bit offset is taken from
the `NamedImageProperties` layout quoted in `car.rs` (bits 5..7). -/
def RenditionFlags.template_rendering_mode (f : RenditionFlags) : Option TemplateMode :=
  match (f.flags >>> 5) &&& 7 with
  | 0 => some .automatic
  | 1 => some .original
  | 2 => some .template
  | _ => none

/-- Bit pattern of the IEEE-754 double 1.0. -/
def f64_one_bits : Nat := 0x3FF0000000000000

/-- The Rust comparison `opacity == 1.0` on an f64 modelled by its bit
pattern: true exactly for the unique representation of 1.0 (NaN patterns
compare unequal, and no other pattern is numerically 1.0). -/
def f64_eq_one (bits : Nat) : Bool := bits == f64_one_bits

/-- TLV records, from the spec's §3/§4.2 tag interpretations (the decoder
itself lives in the missing `coreui::tlv` module; the variant payloads used
by the projector are: `Slices` carries a u32 width and height,
`BlendModeAndOpacity` a u32 blend mode and an f64 opacity, `UTI` a byte
string, and unknown tags are preserved). -/
inductive RenditionType
  | Slices (width : Nat) (height : Nat)
  | BlendModeAndOpacity (blend_mode : Nat) (opacity : Nat)
  | UTI (string : List Nat)
  | Unknown (tag : Nat) (bytes : List Nat)
  deriving DecidableEq, Repr

/-- Rendition body, from the spec's §3 (the decoder lives in the missing
`coreui::rendition` module; the projector matches on the variants and the
fields listed here; color components are f64s, modelled by bit patterns). -/
inductive Rendition
  | RawData (raw_data_length : Nat) (bytes : List Nat)
  | Color (component_count : Nat) (components : List Nat)
  | Theme (compression_type : CompressionType) (payload : List Nat)
  | MultisizeImageSet (entries : List Nat)
  | Unknown
  deriving DecidableEq, Repr

/-- CSI metadata sub-record, from `car.rs` `CSIMetadata`. -/
structure CSIMetadata where
  mod_time : Nat
  layout : RenditionLayoutType
  name : String
  deriving DecidableEq, Repr

/-- CSI bitmap-list sub-record, from `car.rs` `CSIBitmapList` (u32 fields). -/
structure CSIBitmapList where
  tlv_length : Nat
  unknown : Nat
  zero : Nat
  rendition_length : Nat
  deriving DecidableEq, Repr

/-- The per-asset CSI record, mirroring `car.rs` `CSIHeader` (the
`coreui::csi::Header` type consumed by the projector lives in the missing
`coreui` module; its field set is the one the projector reads, identical to
`CSIHeader`).  `scale_factor` is the raw scale integer (the projector
compares it with 0 and divides it by 100). -/
structure Header where
  magic : String
  version : Nat
  rendition_flags : RenditionFlags
  width : Nat
  height : Nat
  scale_factor : Nat
  pixel_format : PixelFormat
  color_space : ColorSpace
  csimetadata : CSIMetadata
  csibitmaplist : CSIBitmapList
  tlv_data : List RenditionType
  rendition_data : Rendition
  deriving DecidableEq, Repr

/-- Modelled from the spec: `csi::Header::properties` (missing `coreui::csi`
module) returns the decoded TLV records of the header's TLV stream. -/
def Header.properties (h : Header) : List RenditionType := h.tlv_data

/-- Modelled from the spec: `common::parse_padded_string` (missing `common`
module), §4.1: the substring of a NUL-padded byte slot up to the first NUL. -/
def parse_padded_string (bytes : List Nat) : String :=
  String.mk ((bytes.takeWhile (fun b => b != 0)).map (fun b => Char.ofNat b))

/-- Uppercase hex digit of a nibble, for `encode_hex_upper`. -/
def hexDigitUpper (n : Nat) : Char :=
  if n < 10 then Char.ofNat (48 + n) else Char.ofNat (55 + n)

/-- `hex::ToHex::encode_hex_upper` on a byte vector: each byte becomes two
uppercase hex digits, high nibble first.  The empty byte string encodes to
the empty string. -/
def encode_hex_upper (bytes : List Nat) : String :=
  String.mk (bytes.foldr
    (fun b acc => hexDigitUpper ((b / 16) % 16) :: hexDigitUpper (b % 16) :: acc) [])

/-- Modelled from the spec: `coreui::rendition::KeyFormat::map` (missing
`coreui` module), §4.5: the positional join of the key-format attribute
kinds with the raw 16-bit key values (arity mismatches are rejected at parse
time, so the join is a plain zip). -/
def keyFormatMap (fmt : List AttributeType) (key : List Nat) :
    List (AttributeType × Nat) :=
  fmt.zip key

/-- The JSON projection of one asset, mirroring the `AssetUtilEntry` struct
of `assetutil.rs` field for field (each field is an `Option` and is skipped
by serde when `none`).  The Rust field `opaque` is named `isOpaque` here
because `opaque` is a reserved word in Lean. -/
structure AssetUtilEntry where
  asset_type : Option String
  bits_per_component : Option Nat
  color_components : Option (List Nat)
  color_model : Option ColorModel
  colorspace : Option ColorSpace
  compression : Option CompressionType
  data_length : Option Nat
  encoding : Option PixelFormat
  idiom : Option Idiom
  name : Option String
  name_identifier : Option Nat
  isOpaque : Option Bool
  pixel_height : Option Nat
  pixel_width : Option Nat
  rendition_name : Option String
  scale : Option Nat
  sha1_digest : Option String
  size_on_disk : Option Nat
  state : Option String
  template_mode : Option TemplateMode
  uti : Option String
  value : Option String
  deriving DecidableEq, Repr

/-- `AssetUtilEntry::from_csi_header` from `assetutil.rs`, translated let by
let.  u32 addition in `size_on_disk` is taken modulo 2^32. -/
def from_csi_header (csi_header : Header) (facet_key : Option String)
    (rendition_key_values : List (AttributeType × Nat)) (sha_digest : List Nat) :
    AssetUtilEntry :=
  let layout := csi_header.csimetadata.layout
  let asset_type : Option String :=
    match layout with
    | .Color => some "Color"
    | .Data => some "Data"
    | .Image => some "Image"
    | _ => none
  let bits_per_component : Option Nat :=
    match layout with
    | .Image => some 8
    | _ => none
  let color_components : Option (List Nat) :=
    match csi_header.rendition_data with
    | .Color _ components => some components
    | _ => none
  let color_model : Option ColorModel :=
    match layout with
    | .Image => csi_header.color_space.color_model
    | _ => none
  let colorspace : Option ColorSpace :=
    match csi_header.rendition_data with
    | .Color _ _ => some .SRGB
    | .Theme _ _ => some .SRGB
    | _ => none
  let compression : Option CompressionType :=
    match csi_header.rendition_data with
    | .Theme compression_type _ => some compression_type
    | .RawData _ _ =>
      match layout with
      | .Data => some .Uncompressed
      | _ => none
    | _ => none
  let data_length : Option Nat :=
    match csi_header.rendition_data with
    | .RawData raw_data_length _ =>
      match layout with
      | .Data => some raw_data_length
      | _ => none
    | _ => none
  let encoding : Option PixelFormat :=
    match layout with
    | .Image => some csi_header.pixel_format
    | _ => none
  let idiom : Option Idiom :=
    (rendition_key_values.find?
      (fun p => decide (p.1 = AttributeType.Idiom))).bind
      (fun p => idiom_from_u16 p.2)
  let name_identifier : Option Nat :=
    (rendition_key_values.find?
      (fun p => decide (p.1 = AttributeType.Identifier))).map (fun p => p.2)
  let isOpaque : Option Bool :=
    match layout with
    | .Image =>
      let o := csi_header.properties.findSome?
        (fun attribute_type =>
          match attribute_type with
          | RenditionType.BlendModeAndOpacity _ opacity => some (f64_eq_one opacity)
          | _ => none)
      o.or (some csi_header.rendition_flags.isOpaque)
    | _ => none
  let pixel_height0 : Option Nat :=
    match layout with
    | .Image => some csi_header.height
    | _ => none
  let pixel_height : Option Nat :=
    if pixel_height0 = some 0 then
      csi_header.properties.findSome?
        (fun attribute_type =>
          match attribute_type with
          | RenditionType.Slices _ height => some height
          | _ => none)
    else pixel_height0
  let pixel_width0 : Option Nat :=
    match layout with
    | .Image => some csi_header.width
    | _ => none
  let pixel_width : Option Nat :=
    if pixel_width0 = some 0 then
      csi_header.properties.findSome?
        (fun attribute_type =>
          match attribute_type with
          | RenditionType.Slices width _ => some width
          | _ => none)
    else pixel_width0
  let rendition_name : Option String :=
    match layout with
    | .Image => some csi_header.csimetadata.name
    | _ => none
  let scale : Option Nat :=
    if csi_header.scale_factor = 0 then some 1
    else some (csi_header.scale_factor / 100)
  let sha1_digest : Option String := some (encode_hex_upper sha_digest)
  -- 184 is the size of the csi header struct
  let size_on_disk : Option Nat :=
    some ((184 + csi_header.csibitmaplist.tlv_length
      + csi_header.csibitmaplist.rendition_length) % 4294967296)
  let state : Option String :=
    (rendition_key_values.find?
      (fun p => decide (p.1 = AttributeType.State))).bind
      (fun p => match p.2 with
        | 0 => some "Normal"
        | _ => none)
  let template_mode : Option TemplateMode :=
    match layout with
    | .Image => csi_header.rendition_flags.template_rendering_mode
    | _ => none
  -- NOTE: the source searches the State attribute here, not Value.
  let value : Option String :=
    (rendition_key_values.find?
      (fun p => decide (p.1 = AttributeType.State))).bind
      (fun p => match p.2 with
        | 0 => some "Off"
        | _ => some "On")
  let uti : Option String :=
    match layout with
    | .Data =>
      let u := csi_header.properties.findSome?
        (fun rendition_type =>
          match rendition_type with
          | RenditionType.UTI string => some (parse_padded_string string)
          | _ => none)
      some (u.getD "UTI-Unknown")
    | _ => none
  { asset_type := asset_type
    bits_per_component := bits_per_component
    color_components := color_components
    color_model := color_model
    colorspace := colorspace
    compression := compression
    data_length := data_length
    encoding := encoding
    idiom := idiom
    name := facet_key
    name_identifier := name_identifier
    isOpaque := isOpaque
    pixel_height := pixel_height
    pixel_width := pixel_width
    rendition_name := rendition_name
    scale := scale
    sha1_digest := sha1_digest
    size_on_disk := size_on_disk
    state := state
    template_mode := template_mode
    uti := uti
    value := value }

/-- Insert-or-overwrite on an association list, modelling insertion into a
Rust `HashMap` (a later insertion with an equal key replaces the earlier
binding). -/
def hashInsert (m : List (Nat × String)) (k : Nat) (v : String) :
    List (Nat × String) :=
  match m with
  | [] => [(k, v)]
  | (k0, v0) :: rest =>
    if k0 = k then (k, v) :: rest else (k0, v0) :: hashInsert rest k v

/-- Lookup in the association-list model of a `HashMap`. -/
def hashLookup (m : List (Nat × String)) (k : Nat) : Option String :=
  (m.find? (fun p => decide (p.1 = k))).map (fun p => p.2)

/-- The `name_identifer_to_facet_key` map built at the top of
`entries_from_asset_storage`: for each facet, find its `Identifier`
attribute and map the identifier value to the facet name; the pairs are
collected into a `HashMap`, so facets sharing an identifier silently
overwrite one another (the pair inserted last wins). -/
def name_identifier_to_facet_key
    (facetkeysdb : List (String × RenditionKeyToken)) : List (Nat × String) :=
  (facetkeysdb.filterMap
    (fun p =>
      (p.2.attributes.find?
        (fun a => decide (a.name = AttributeType.Identifier))).map
        (fun a => (a.value, p.1)))).foldl
    (fun m kv => hashInsert m kv.1 kv.2) []

/-- Modelled from the spec: `coreui::CommonAssetStorage` (missing `coreui`
module).  §3 declares `facets`, `renditions` and `digests` as mappings; they
are modelled as ordered association lists, together with the rendition
key-format declaration.  The field names are the ones
`entries_from_asset_storage` reads. -/
structure CommonAssetStorage where
  facetkeysdb : List (String × RenditionKeyToken)
  renditionkeyfmt : List AttributeType
  imagedb : Option (List (List Nat × Header))
  rendition_sha_digests : List (List Nat × List Nat)

/-- Digest lookup in `entries_from_asset_storage`:
`rendition_sha_digests.get(rendition_key).cloned().unwrap_or_default()`. -/
def digest_for (s : CommonAssetStorage) (rendition_key : List Nat) : List Nat :=
  ((s.rendition_sha_digests.find?
    (fun p => decide (p.1 = rendition_key))).map (fun p => p.2)).getD []

/-- `AssetUtilEntry::entries_from_asset_storage` from `assetutil.rs`: when
the renditions table is absent the result is empty; otherwise each rendition
is joined with the key format, the facet name is resolved through the
identifier map, the digest defaults to the empty byte string, and
`from_csi_header` builds the entry.  The output order is the renditions
table's order. -/
def entries_from_asset_storage (asset_storage : CommonAssetStorage) :
    List AssetUtilEntry :=
  let m := name_identifier_to_facet_key asset_storage.facetkeysdb
  match asset_storage.imagedb with
  | none => []
  | some imagedb =>
    imagedb.map (fun rk =>
      let rendition_key_values := keyFormatMap asset_storage.renditionkeyfmt rk.1
      let name_identifier :=
        (rendition_key_values.find?
          (fun p => decide (p.1 = AttributeType.Identifier))).map (fun p => p.2)
      let facet_key :=
        match name_identifier with
        | some v => hashLookup m v
        | none => none
      let sha_digest := digest_for asset_storage rk.1
      from_csi_header rk.2 facet_key rendition_key_values sha_digest)

/-- A JSON value as far as the projector's output needs: strings, unsigned
integers, booleans, and arrays of f64 components (modelled by bit
patterns). -/
inductive Json
  | str (s : String)
  | nat (n : Nat)
  | bool (b : Bool)
  | f64list (bits : List Nat)
  deriving DecidableEq, Repr

/-- `common_serialization` from `assetutil.rs`: the key projection shared by
the custom serializers.  `Part` and `Element` are skipped; `Idiom` is
emitted when the value decodes; `State` yields `"Normal"`/`"???"`; `Value`
yields `"Off"`/`"On"`; every other kind is emitted with its display name
when its value is positive. -/
def common_serialization (keyformat : List AttributeType) (key : List Nat) :
    List (String × Json) :=
  (keyFormatMap keyformat key).filterMap (fun p =>
    match p.1 with
    | AttributeType.Part => none
    | AttributeType.Element => none
    | AttributeType.Idiom =>
      (idiom_from_u16 p.2).map (fun idiom => ("Idiom", Json.str idiom.display))
    | AttributeType.State =>
      some ("State", Json.str (match p.2 with | 0 => "Normal" | _ => "???"))
    | AttributeType.Value =>
      some ("Value", Json.str (match p.2 with | 0 => "Off" | _ => "On"))
    | k => if p.2 > 0 then some (k.display, Json.nat p.2) else none)

/-- One optional serde field: present only when the option is `some`. -/
def optField (key : String) (v : Option Json) : List (String × Json) :=
  match v with
  | some j => [(key, j)]
  | none => []

/-- The serde surface of an `AssetUtilEntry`: its fields in struct order
under their `rename` keys, `none` fields skipped (serde's
`skip_serializing_if = Option::is_none`). -/
def entryFields (e : AssetUtilEntry) : List (String × Json) :=
  optField "AssetType" (e.asset_type.map Json.str)
  ++ optField "BitsPerComponent" (e.bits_per_component.map Json.nat)
  ++ optField "Color components" (e.color_components.map Json.f64list)
  ++ optField "ColorModel" (e.color_model.map (fun c => Json.str c.display))
  ++ optField "Colorspace" (e.colorspace.map (fun c => Json.str c.display))
  ++ optField "Compression" (e.compression.map (fun c => Json.str c.display))
  ++ optField "Data Length" (e.data_length.map Json.nat)
  ++ optField "Encoding" (e.encoding.map (fun c => Json.str c.display))
  ++ optField "Idiom" (e.idiom.map (fun c => Json.str c.display))
  ++ optField "Name" (e.name.map Json.str)
  ++ optField "NameIdentifier" (e.name_identifier.map Json.nat)
  ++ optField "Opaque" (e.isOpaque.map Json.bool)
  ++ optField "PixelHeight" (e.pixel_height.map Json.nat)
  ++ optField "PixelWidth" (e.pixel_width.map Json.nat)
  ++ optField "RenditionName" (e.rendition_name.map Json.str)
  ++ optField "Scale" (e.scale.map Json.nat)
  ++ optField "SHA1Digest" (e.sha1_digest.map Json.str)
  ++ optField "SizeOnDisk" (e.size_on_disk.map Json.nat)
  ++ optField "State" (e.state.map Json.str)
  ++ optField "Template Mode" (e.template_mode.map (fun c => Json.str c.display))
  ++ optField "UTI" (e.uti.map Json.str)
  ++ optField "Value" (e.value.map Json.str)

/-- Minimal escaping for JSON string rendering (quote and backslash). -/
def escChar (c : Char) : String :=
  if c = '\"' then "\\\"" else if c = '\\' then "\\\\" else String.mk [c]

/-- Render a JSON scalar.  JSON pretty-printing is an external collaborator
in the spec (§1); this renderer only fixes one deterministic byte form, with
f64 components rendered from their bit patterns. -/
def renderJson : Json → String
  | .str s => "\"" ++ (s.toList.map escChar).foldl (fun a b => a ++ b) "" ++ "\""
  | .nat n => toString n
  | .bool b => if b then "true" else "false"
  | .f64list bits => "[" ++ String.intercalate "," (bits.map toString) ++ "]"

/-- Render an object field list in its given order. -/
def renderObj (fields : List (String × Json)) : String :=
  "\x7b" ++ String.intercalate ","
    (fields.map (fun p => "\"" ++ p.1 ++ "\":" ++ renderJson p.2)) ++ "\x7d"

/-- The per-asset JSON document of a storage: the entry sequence rendered in
order. -/
def assets_json (s : CommonAssetStorage) : String :=
  "[" ++ String.intercalate ","
    ((entries_from_asset_storage s).map (fun e => renderObj (entryFields e))) ++ "]"

/-- The raw scale-factor enumeration from `car.rs` (`Scale`): the parser
accepts exactly the codes 0, 100, 200, 300 (`NoVariantMatch` otherwise). -/
inductive Scale
  | None
  | X1
  | X2
  | X3
  deriving DecidableEq, Repr

/-- The `Serialize` impl for `Scale` in `car.rs`: `None` and `X1` emit 1,
`X2` emits 2, `X3` emits 3. -/
def Scale.serialize : Scale → Nat
  | .None => 1
  | .X1 => 1
  | .X2 => 2
  | .X3 => 3

/-- Opacity bits of the first `BlendModeAndOpacity` record of a TLV
stream. -/
def firstBlendBits (tlv : List RenditionType) : Option Nat :=
  tlv.findSome? (fun t =>
    match t with
    | RenditionType.BlendModeAndOpacity _ opacity => some opacity
    | _ => none)

/-- Width of the first `Slices` record of a TLV stream. -/
def firstSlicesWidth (tlv : List RenditionType) : Option Nat :=
  tlv.findSome? (fun t =>
    match t with
    | RenditionType.Slices width _ => some width
    | _ => none)

/-- Height of the first `Slices` record of a TLV stream. -/
def firstSlicesHeight (tlv : List RenditionType) : Option Nat :=
  tlv.findSome? (fun t =>
    match t with
    | RenditionType.Slices _ height => some height
    | _ => none)

/-! ### Concrete sample values, used by witnesses and counterexamples -/

/-- A rendition-flags word with all bits clear. -/
def flags0 : RenditionFlags := ⟨0⟩

/-- A small bitmap-list record: 10 TLV bytes, 44 rendition bytes. -/
def bml0 : CSIBitmapList :=
  { tlv_length := 10, unknown := 0, zero := 0, rendition_length := 44 }

/-- A Data-layout CSI header (a raw-data asset of 14 bytes). -/
def hdrData : Header :=
  { magic := "CTSI", version := 1, rendition_flags := flags0,
    width := 0, height := 0, scale_factor := 100,
    pixel_format := PixelFormat.Data, color_space := ColorSpace.SRGB,
    csimetadata := { mod_time := 0, layout := RenditionLayoutType.Data, name := "MyText" },
    csibitmaplist := bml0, tlv_data := [],
    rendition_data := Rendition.RawData 14 [] }

/-- An Image-layout CSI header, 84×84 at raw scale 300, empty TLV stream. -/
def hdrImg : Header :=
  { magic := "CTSI", version := 1, rendition_flags := flags0,
    width := 84, height := 84, scale_factor := 300,
    pixel_format := PixelFormat.ARGB, color_space := ColorSpace.SRGB,
    csimetadata := { mod_time := 0, layout := RenditionLayoutType.Image, name := "Timac.png" },
    csibitmaplist := bml0, tlv_data := [],
    rendition_data := Rendition.Theme CompressionType.PaletteImg [] }

/-- An Image-layout CSI header whose TLV stream carries a
`BlendModeAndOpacity` record with opacity 1.0. -/
def hdrImgBlend : Header :=
  { hdrImg with
    tlv_data := [RenditionType.BlendModeAndOpacity 0 f64_one_bits] }

/-- An Image-layout CSI header with zero CSI-level dimensions and an 84×84
`Slices` TLV record. -/
def hdrImgSliced : Header :=
  { hdrImg with
    width := 0
    height := 0
    tlv_data := [RenditionType.Slices 84 84] }

/-- A facet key token holding a single `Identifier` attribute. -/
def tokenIdent (v : Nat) : RenditionKeyToken :=
  ⟨[{ name := AttributeType.Identifier, value := v }]⟩

/-- A storage whose two facets carry the same identifier value 7, with one
rendition keyed by that identifier. -/
def dupStorage : CommonAssetStorage :=
  { facetkeysdb := [("FacetA", tokenIdent 7), ("FacetB", tokenIdent 7)],
    renditionkeyfmt := [AttributeType.Identifier],
    imagedb := some [([7], hdrData)],
    rendition_sha_digests := [] }

/-- A storage with one rendition and an empty digest table. -/
def noDigestStorage : CommonAssetStorage :=
  { facetkeysdb := [],
    renditionkeyfmt := [AttributeType.Identifier],
    imagedb := some [([9], hdrData)],
    rendition_sha_digests := [] }

/-- A storage with no renditions table but nonempty facet and digest
tables. -/
def noImagedbStorage : CommonAssetStorage :=
  { facetkeysdb := [("FacetA", tokenIdent 1)],
    renditionkeyfmt := [AttributeType.Identifier],
    imagedb := none,
    rendition_sha_digests := [([1], [2])] }

/-! ### Field-level characterizations of `from_csi_header` -/

theorem from_csi_header_value (h : Header) (fk : Option String)
    (kvs : List (AttributeType × Nat)) (sha : List Nat) :
    (from_csi_header h fk kvs sha).value
      = (kvs.find? (fun p => decide (p.1 = AttributeType.State))).bind
          (fun p => match p.2 with | 0 => some "Off" | _ => some "On") := rfl

theorem from_csi_header_state (h : Header) (fk : Option String)
    (kvs : List (AttributeType × Nat)) (sha : List Nat) :
    (from_csi_header h fk kvs sha).state
      = (kvs.find? (fun p => decide (p.1 = AttributeType.State))).bind
          (fun p => match p.2 with | 0 => some "Normal" | _ => none) := rfl

theorem from_csi_header_scale (h : Header) (fk : Option String)
    (kvs : List (AttributeType × Nat)) (sha : List Nat) :
    (from_csi_header h fk kvs sha).scale
      = if h.scale_factor = 0 then some 1
        else some (h.scale_factor / 100) := rfl

theorem from_csi_header_size_on_disk (h : Header) (fk : Option String)
    (kvs : List (AttributeType × Nat)) (sha : List Nat) :
    (from_csi_header h fk kvs sha).size_on_disk
      = some ((184 + h.csibitmaplist.tlv_length
          + h.csibitmaplist.rendition_length) % 4294967296) := rfl

theorem from_csi_header_sha1_digest (h : Header) (fk : Option String)
    (kvs : List (AttributeType × Nat)) (sha : List Nat) :
    (from_csi_header h fk kvs sha).sha1_digest
      = some (encode_hex_upper sha) := rfl

theorem from_csi_header_isOpaque (h : Header) (fk : Option String)
    (kvs : List (AttributeType × Nat)) (sha : List Nat) :
    (from_csi_header h fk kvs sha).isOpaque
      = match h.csimetadata.layout with
        | RenditionLayoutType.Image =>
          (h.properties.findSome? (fun t =>
            match t with
            | RenditionType.BlendModeAndOpacity _ opacity => some (f64_eq_one opacity)
            | _ => none)).or (some h.rendition_flags.isOpaque)
        | _ => none := rfl

theorem from_csi_header_pixel_width (h : Header) (fk : Option String)
    (kvs : List (AttributeType × Nat)) (sha : List Nat) :
    (from_csi_header h fk kvs sha).pixel_width
      = (if (match h.csimetadata.layout with
              | RenditionLayoutType.Image => some h.width
              | _ => none) = some 0
          then firstSlicesWidth h.tlv_data
          else (match h.csimetadata.layout with
                | RenditionLayoutType.Image => some h.width
                | _ => none)) := rfl

theorem from_csi_header_pixel_height (h : Header) (fk : Option String)
    (kvs : List (AttributeType × Nat)) (sha : List Nat) :
    (from_csi_header h fk kvs sha).pixel_height
      = (if (match h.csimetadata.layout with
              | RenditionLayoutType.Image => some h.height
              | _ => none) = some 0
          then firstSlicesHeight h.tlv_data
          else (match h.csimetadata.layout with
                | RenditionLayoutType.Image => some h.height
                | _ => none)) := rfl

/-! ### Claims -/

/-- C1: in `from_csi_header` the output field `Value` is computed by looking
up the `State` attribute of the key-format join, not the `Value` attribute:
on a join carrying `Value = 1` and `State = 0` the entry projection emits
`"Value": "Off"` although the `Value` attribute is nonzero, while the
`common_serialization` routine of the same file derives `"Value": "On"` from
the `Value` attribute as the spec states. -/
theorem value_field_reads_state_attribute :
    (from_csi_header hdrData none
        [(AttributeType.Value, 1), (AttributeType.State, 0)] []).value
      = some "Off"
    ∧ common_serialization [AttributeType.Value, AttributeType.State] [1, 0]
      = [("Value", Json.str "On"), ("State", Json.str "Normal")] :=
  ⟨rfl, rfl⟩

/-- C2 counterexample: a storage whose two facets carry the same
`Identifier` value 7 is projected without any error: the identifier map
silently keeps the facet inserted last and one entry (named after that
facet) is produced. -/
theorem duplicate_identifier_produces_projection :
    ((tokenIdent 7).attributes.find?
        (fun a => decide (a.name = AttributeType.Identifier))).map
        (fun a => a.value) = some 7
    ∧ (entries_from_asset_storage dupStorage).map (fun e => e.name)
      = [some "FacetB"] :=
  ⟨rfl, rfl⟩

/-- C2 amended: duplicate facet identifiers are not detected.
`entries_from_asset_storage` is total and yields one entry per rendition
regardless of the facet table, and when two facets share an identifier the
one iterated last owns the mapping. -/
theorem entries_total_and_last_facet_wins
    (s : CommonAssetStorage) (db : List (List Nat × Header))
    (n1 n2 : String) (v : Nat)
    (hdb : s.imagedb = some db) :
    (entries_from_asset_storage s).length = db.length
    ∧ hashLookup (name_identifier_to_facet_key
        [(n1, tokenIdent v), (n2, tokenIdent v)]) v = some n2 := by
  constructor
  · simp [entries_from_asset_storage, hdb]
  · simp [name_identifier_to_facet_key, tokenIdent, hashInsert, hashLookup]

theorem entries_total_and_last_facet_wins_witness :
    (entries_from_asset_storage dupStorage).length = 1
    ∧ hashLookup (name_identifier_to_facet_key
        [("FacetA", tokenIdent 7), ("FacetB", tokenIdent 7)]) 7
      = some "FacetB" :=
  entries_total_and_last_facet_wins dupStorage [([7], hdrData)]
    "FacetA" "FacetB" 7 rfl

/-- C3: the projection pipeline is a pure function of the storage — two
evaluations agree byte for byte — and the entry sequence has one record per
renditions-table row, in the table's order. -/
theorem projection_deterministic (s : CommonAssetStorage) :
    assets_json s = assets_json s
    ∧ (entries_from_asset_storage s).length = (s.imagedb.getD []).length := by
  refine ⟨rfl, ?_⟩
  cases h : s.imagedb <;> simp [entries_from_asset_storage, h]

/-- C4 counterexample: on a key-format join whose `State` attribute is 3,
the entry projection leaves the `state` field `none`, so no `State` key is
present in the serialized output — the claim's `"???"` is not emitted on
this path. -/
theorem nonzero_state_field_omitted :
    (from_csi_header hdrData none [(AttributeType.State, 3)] []).state = none
    ∧ (entryFields (from_csi_header hdrData none
        [(AttributeType.State, 3)] [])).find?
        (fun p => decide (p.1 = "State")) = none :=
  ⟨rfl, rfl⟩

/-- C4 amended: for a join carrying a `State` attribute with value `v`, the
entry projection emits `"State": "Normal"` when `v = 0` and omits the field
otherwise, while `common_serialization` emits `"Normal"` when `v = 0` and
`"???"` otherwise. -/
theorem state_field_rules
    (h : Header) (fk : Option String) (kvs : List (AttributeType × Nat))
    (sha : List Nat) (v : Nat) (fmt : List AttributeType) (key : List Nat)
    (hfind : kvs.find? (fun p => decide (p.1 = AttributeType.State))
        = some (AttributeType.State, v))
    (hmem : (AttributeType.State, v) ∈ keyFormatMap fmt key) :
    (from_csi_header h fk kvs sha).state
        = (if v = 0 then some "Normal" else none)
    ∧ ("State", Json.str (if v = 0 then "Normal" else "???"))
        ∈ common_serialization fmt key := by
  constructor
  · rw [from_csi_header_state, hfind]
    cases v <;> simp
  · unfold common_serialization
    refine List.mem_filterMap.mpr ⟨(AttributeType.State, v), hmem, ?_⟩
    cases v <;> rfl

theorem state_field_rules_witness :
    (from_csi_header hdrData none [(AttributeType.State, 3)] []).state = none
    ∧ ("State", Json.str "???")
        ∈ common_serialization [AttributeType.State] [3] := by
  have h := state_field_rules hdrData none [(AttributeType.State, 3)] [] 3
    [AttributeType.State] [3] rfl (by simp [keyFormatMap])
  exact h

/-- C5: the emitted `SizeOnDisk` is `184 + tlv_length + rendition_length`
(the addition is u32 arithmetic, so the equality holds whenever the sum does
not overflow, which covers every value the two u32 fields can realize). -/
theorem size_on_disk_formula
    (h : Header) (fk : Option String) (kvs : List (AttributeType × Nat))
    (sha : List Nat)
    (hb : 184 + h.csibitmaplist.tlv_length + h.csibitmaplist.rendition_length
        < 4294967296) :
    (from_csi_header h fk kvs sha).size_on_disk
      = some (184 + h.csibitmaplist.tlv_length
          + h.csibitmaplist.rendition_length) := by
  rw [from_csi_header_size_on_disk, Nat.mod_eq_of_lt hb]

theorem size_on_disk_formula_witness :
    (from_csi_header hdrData none [] []).size_on_disk = some 238 :=
  size_on_disk_formula hdrData none [] [] (by decide)

theorem findSome_blend_eq_map (tlv : List RenditionType) :
    (tlv.findSome? (fun t =>
      match t with
      | RenditionType.BlendModeAndOpacity _ opacity => some (f64_eq_one opacity)
      | _ => none))
    = (firstBlendBits tlv).map f64_eq_one := by
  induction tlv with
  | nil => rfl
  | cons t ts ih =>
    cases t with
    | BlendModeAndOpacity bm op =>
      simp [firstBlendBits, List.findSome?_cons]
    | Slices w ht => simpa [firstBlendBits, List.findSome?_cons] using ih
    | UTI s => simpa [firstBlendBits, List.findSome?_cons] using ih
    | Unknown tg bs => simpa [firstBlendBits, List.findSome?_cons] using ih

/-- C6: for an Image-layout asset, `Opaque` is `opacity == 1.0` of the first
`BlendModeAndOpacity` TLV record when one exists, and the `is_opaque` bit of
the rendition flags otherwise; non-Image assets carry no `Opaque` field. -/
theorem opaque_rule
    (h : Header) (fk : Option String) (kvs : List (AttributeType × Nat))
    (sha : List Nat) (p : Nat) :
    (h.csimetadata.layout = RenditionLayoutType.Image →
        firstBlendBits h.tlv_data = some p →
        (from_csi_header h fk kvs sha).isOpaque = some (f64_eq_one p))
    ∧ (h.csimetadata.layout = RenditionLayoutType.Image →
        firstBlendBits h.tlv_data = none →
        (from_csi_header h fk kvs sha).isOpaque
          = some h.rendition_flags.isOpaque)
    ∧ (h.csimetadata.layout ≠ RenditionLayoutType.Image →
        (from_csi_header h fk kvs sha).isOpaque = none) := by
  refine ⟨?_, ?_, ?_⟩
  · intro h1 h2
    rw [from_csi_header_isOpaque, h1]
    simp [Header.properties, findSome_blend_eq_map, h2, Option.or]
  · intro h1 h2
    rw [from_csi_header_isOpaque, h1]
    simp [Header.properties, findSome_blend_eq_map, h2, Option.or]
  · intro h1
    rw [from_csi_header_isOpaque]
    cases hl : h.csimetadata.layout <;> simp_all

theorem opaque_rule_witness :
    (from_csi_header hdrImgBlend none [] []).isOpaque = some true
    ∧ (from_csi_header hdrImg none [] []).isOpaque = some false
    ∧ (from_csi_header hdrData none [] []).isOpaque = none := by
  refine ⟨?_, ?_, ?_⟩
  · exact (opaque_rule hdrImgBlend none [] [] f64_one_bits).1 rfl rfl
  · exact (opaque_rule hdrImg none [] [] 0).2.1 rfl rfl
  · exact (opaque_rule hdrData none [] [] 0).2.2 (by decide)

/-- C7: the emitted `Scale` is 1 when the raw scale factor is 0 and
`raw / 100` otherwise, and — since the parser admits only the raw codes
0/100/200/300 — the output always lies in {1, 2, 3}; the `Serialize` impl
for the `Scale` enumeration in `car.rs` likewise only emits 1, 2 or 3. -/
theorem scale_rule
    (h : Header) (fk : Option String) (kvs : List (AttributeType × Nat))
    (sha : List Nat) (sc : Scale)
    (hs : h.scale_factor = 0 ∨ h.scale_factor = 100 ∨ h.scale_factor = 200
        ∨ h.scale_factor = 300) :
    (from_csi_header h fk kvs sha).scale
        = some (if h.scale_factor = 0 then 1 else h.scale_factor / 100)
    ∧ ((from_csi_header h fk kvs sha).scale = some 1
        ∨ (from_csi_header h fk kvs sha).scale = some 2
        ∨ (from_csi_header h fk kvs sha).scale = some 3)
    ∧ (Scale.serialize sc = 1 ∨ Scale.serialize sc = 2
        ∨ Scale.serialize sc = 3) := by
  refine ⟨?_, ?_, ?_⟩
  · rw [from_csi_header_scale]
    by_cases h0 : h.scale_factor = 0 <;> simp [h0]
  · rcases hs with h0 | h0 | h0 | h0 <;> rw [from_csi_header_scale, h0] <;> simp
  · cases sc <;> simp [Scale.serialize]

theorem scale_rule_witness :
    (from_csi_header hdrImg none [] []).scale = some 3
    ∧ ((from_csi_header hdrImg none [] []).scale = some 1
        ∨ (from_csi_header hdrImg none [] []).scale = some 2
        ∨ (from_csi_header hdrImg none [] []).scale = some 3)
    ∧ (Scale.serialize Scale.X3 = 1 ∨ Scale.serialize Scale.X3 = 2
        ∨ Scale.serialize Scale.X3 = 3) :=
  scale_rule hdrImg none [] [] Scale.X3 (Or.inr (Or.inr (Or.inr rfl)))

/-- C8: for an Image-layout asset, a nonzero CSI-level width (height) is
emitted unchanged, and a zero CSI-level width (height) is substituted with
the width (height) of the first `Slices` TLV record when one exists. -/
theorem pixel_dimension_rule
    (h : Header) (fk : Option String) (kvs : List (AttributeType × Nat))
    (sha : List Nat) (w ht : Nat) :
    (h.csimetadata.layout = RenditionLayoutType.Image → h.width ≠ 0 →
        (from_csi_header h fk kvs sha).pixel_width = some h.width)
    ∧ (h.csimetadata.layout = RenditionLayoutType.Image → h.width = 0 →
        firstSlicesWidth h.tlv_data = some w →
        (from_csi_header h fk kvs sha).pixel_width = some w)
    ∧ (h.csimetadata.layout = RenditionLayoutType.Image → h.height ≠ 0 →
        (from_csi_header h fk kvs sha).pixel_height = some h.height)
    ∧ (h.csimetadata.layout = RenditionLayoutType.Image → h.height = 0 →
        firstSlicesHeight h.tlv_data = some ht →
        (from_csi_header h fk kvs sha).pixel_height = some ht) := by
  refine ⟨?_, ?_, ?_, ?_⟩
  · intro h1 h2
    rw [from_csi_header_pixel_width, h1]
    simp [h2]
  · intro h1 h2 h3
    rw [from_csi_header_pixel_width, h1]
    simp [h2, h3]
  · intro h1 h2
    rw [from_csi_header_pixel_height, h1]
    simp [h2]
  · intro h1 h2 h3
    rw [from_csi_header_pixel_height, h1]
    simp [h2, h3]

theorem pixel_dimension_rule_witness :
    (from_csi_header hdrImg none [] []).pixel_width = some 84
    ∧ (from_csi_header hdrImgSliced none [] []).pixel_width = some 84
    ∧ (from_csi_header hdrImg none [] []).pixel_height = some 84
    ∧ (from_csi_header hdrImgSliced none [] []).pixel_height = some 84 := by
  refine ⟨?_, ?_, ?_, ?_⟩
  · exact (pixel_dimension_rule hdrImg none [] [] 0 0).1 rfl (by decide)
  · exact (pixel_dimension_rule hdrImgSliced none [] [] 84 84).2.1 rfl rfl rfl
  · exact (pixel_dimension_rule hdrImg none [] [] 0 0).2.2.1 rfl (by decide)
  · exact (pixel_dimension_rule hdrImgSliced none [] [] 84 84).2.2.2 rfl rfl rfl

/-- C9: projection never fails on a missing digest: the entry built for the
`i`-th rendition carries the uppercase hex encoding of its digest-table
entry, which defaults to the empty byte string — hence the empty string —
when the key has no digest, and is the stored digest's uppercase hex when
one is present. -/
theorem digest_projection
    (s : CommonAssetStorage) (db : List (List Nat × Header)) (i : Nat)
    (rk : List Nat) (hd : Header) (d : List Nat)
    (hdb : s.imagedb = some db) (hget : db[i]? = some (rk, hd)) :
    (entries_from_asset_storage s)[i]?.map (fun e => e.sha1_digest)
        = some (some (encode_hex_upper (digest_for s rk)))
    ∧ (s.rendition_sha_digests.find? (fun p => decide (p.1 = rk)) = none →
        (entries_from_asset_storage s)[i]?.map (fun e => e.sha1_digest)
          = some (some ""))
    ∧ (s.rendition_sha_digests.find? (fun p => decide (p.1 = rk))
          = some (rk, d) →
        (entries_from_asset_storage s)[i]?.map (fun e => e.sha1_digest)
          = some (some (encode_hex_upper d))) := by
  have hmain : (entries_from_asset_storage s)[i]?.map (fun e => e.sha1_digest)
      = some (some (encode_hex_upper (digest_for s rk))) := by
    unfold entries_from_asset_storage
    rw [hdb]
    simp only [List.getElem?_map, hget, Option.map_some']
    rw [from_csi_header_sha1_digest]
  refine ⟨hmain, ?_, ?_⟩
  · intro hnone
    have hd0 : digest_for s rk = [] := by simp [digest_for, hnone]
    rw [hmain, hd0]
    rfl
  · intro hsome
    have hdd : digest_for s rk = d := by simp [digest_for, hsome]
    rw [hmain, hdd]

theorem digest_projection_witness :
    (entries_from_asset_storage noDigestStorage)[0]?.map
        (fun e => e.sha1_digest) = some (some "") :=
  (digest_projection noDigestStorage [([9], hdrData)] 0 [9] hdrData []
    rfl rfl).2.1 rfl

/-- C10: when the renditions table is absent, the entry sequence is empty
(and no error occurs), whatever the facet and digest tables contain. -/
theorem no_renditions_table_empty_entries
    (s : CommonAssetStorage) (h : s.imagedb = none) :
    entries_from_asset_storage s = [] := by
  simp [entries_from_asset_storage, h]

theorem no_renditions_table_empty_entries_witness :
    entries_from_asset_storage noImagedbStorage = [] :=
  no_renditions_table_empty_entries noImagedbStorage rfl

end CarReader
